import Mathlib

/-!
Shallow embedding of the Express reverse proxy in `src/proxy/index.js` of the
mba-290t repository, together with theorems settling the behavioural claims
about it.  Pure request/response behaviour is modelled as total functions from
an inbound request plus an environment oracle (the single outbound backend
call's outcome, the multipart parser's outcome, per-file read results) to a
response together with the handler's observable effects (outbound requests,
temp-file deletions).
-/

namespace MbaProxy

/-- HTTP methods handled by the proxy. -/
inductive Method where
  | GET
  | POST
  | PUT
  | DELETE
  | OPTIONS
deriving DecidableEq, Repr

/-- Network-level error codes observed on a failed outbound call.  Axios
reports the firing of its own configured request timeout as `ECONNABORTED`
(this is what the handlers at src/proxy/index.js:81 and :311 match on);
`ETIMEDOUT` is an OS-level connect timeout and `EOTHER` stands for any other
code (DNS failure, TLS failure, ...). -/
inductive ErrCode where
  | ECONNABORTED
  | ECONNRESET
  | ECONNREFUSED
  | ETIMEDOUT
  | EOTHER
deriving DecidableEq, Repr

/-- Outcome of one outbound HTTP call.  For an axios call, `success` is a
resolved promise (2xx by axios's default validateStatus), `httpError` is an
`error.response` rejection carrying the backend's status/body and the optional
`data.detail` field plus the axios `error.message`, and `netError` is a
rejection with no response.  For the raw `http-proxy-middleware` forward,
`success` and `httpError` are both just relayed upstream responses. -/
inductive AxiosOutcome where
  | success (status : Nat) (body : String)
  | httpError (status : Nat) (body : String) (detail : Option String) (msg : String)
  | netError (code : ErrCode) (msg : String)
deriving DecidableEq, Repr

/-- The response the proxy sends to the caller.  `error`/`message` are the
fields of a locally generated JSON error body, `body` is a relayed backend
body, and `acao` records whether the `Access-Control-Allow-Origin` header is
present.  The default `acao := true` encodes that the cors middleware
(src/proxy/index.js:19-25) has run for every path that reaches a route
handler; the only path that bypasses it (a body-parser rejection, see
`dispatch`) sets `acao := false` explicitly. -/
structure Response where
  status : Nat
  error : Option String := none
  message : Option String := none
  body : Option String := none
  acao : Bool := true
deriving DecidableEq, Repr

/-- JavaScript `s.startsWith(pre)`, computed structurally on the character
lists so that concrete instances reduce in the kernel. -/
def strStarts (s pre : String) : Bool :=
  pre.data.isPrefixOf s.data

/-- Drop the first `n` characters of a string, computed structurally. -/
def strDrop (s : String) (n : Nat) : String :=
  ⟨s.data.drop n⟩

/-- JavaScript truthiness of an optional header/field/query value:
`undefined` and the empty string are falsy. -/
def jsTruthy : Option String → Bool
  | none => false
  | some s => s != ""

/-- JavaScript `a?.detail || b`: the fallback is taken when `detail` is
absent or the empty string. -/
def jsOr (a : Option String) (b : String) : String :=
  match a with
  | none => b
  | some s => if s = "" then b else s

/-- The combined check `!authHeader || !authHeader.startsWith('Bearer ')`
at src/proxy/index.js:244. -/
def bearerOk : Option String → Bool
  | none => false
  | some a => strStarts a "Bearer "

/-! ### Credential exchange handler (`POST /api/token`, src/proxy/index.js:39-92) -/

/-- Result of the token handler: the response plus whether the outbound call
to the backend's `/token` endpoint was made. -/
structure TokenResult where
  response : Response
  backendCalled : Bool
deriving DecidableEq, Repr

/-- `app.post('/api/token')` at src/proxy/index.js:39-92: reject 400 when
either credential is missing (JS-falsy), otherwise call the backend; on a
resolved call respond `res.status(200).json(response.data)` (line 69, status
hardcoded to 200); on an `error.response` relay its status with a message
extracted from `data.detail`; on a network error respond 500 with a
code-specific error string (lines 81-85). -/
def tokenHandler (username password : Option String) (backend : AxiosOutcome) : TokenResult :=
  if jsTruthy username = false ∨ jsTruthy password = false then
    { response := { status := 400, error := some "Missing credentials" }, backendCalled := false }
  else
    match backend with
    | .success _ b =>
        { response := { status := 200, body := some b }, backendCalled := true }
    | .httpError s _ detail msg =>
        { response := { status := s, error := some (jsOr detail "Authentication failed"),
                        message := some msg },
          backendCalled := true }
    | .netError code msg =>
        let em :=
          match code with
          | .ECONNABORTED => "Request timeout - backend server may be overloaded"
          | .ECONNREFUSED => "Could not connect to backend server"
          | _ => "Token request failed"
        { response := { status := 500, error := some em, message := some msg },
          backendCalled := true }

/-! ### Analysis handler (`POST /api/analyze-competitors`, src/proxy/index.js:238-331) -/

/-- The outbound request the analysis handler builds (src/proxy/index.js:263-275):
`POST ${TARGET}/analyze-competitors` with `params: {query}`, the three listed
headers, and no request body (axios sends no data field). -/
structure AnalyzeOutbound where
  queryParam : String
  authorization : String
  accept : String
  contentType : String
  body : Option String
deriving DecidableEq, Repr

/-- Result of the analysis handler: the response plus the outbound backend
request, `none` when the handler rejected before calling the backend. -/
structure AnalyzeResult where
  response : Response
  outbound : Option AnalyzeOutbound
deriving DecidableEq, Repr

/-- `app.post('/api/analyze-competitors')` at src/proxy/index.js:238-331.
`reqBody` is the inbound request body; the code never reads it when building
the outbound request. -/
def analyzeHandler (auth : Option String) (queryParam : Option String)
    (reqBody : Option String) (backend : AxiosOutcome) : AnalyzeResult :=
  if bearerOk auth = false then
    { response := { status := 401, error := some "Unauthorized",
                    message := some "Missing or invalid authorization header" },
      outbound := none }
  else if jsTruthy queryParam = false then
    { response := { status := 400, error := some "Bad Request",
                    message := some "Missing query parameter" },
      outbound := none }
  else
    let ob : AnalyzeOutbound :=
      { queryParam := queryParam.getD "", authorization := auth.getD "",
        accept := "application/json", contentType := "application/json", body := none }
    match backend with
    | .success s b =>
        { response := { status := s, body := some b }, outbound := some ob }
    | .httpError s _ detail _ =>
        { response := { status := s, error := some "Analysis Failed",
                        message := some (jsOr detail "Backend error") },
          outbound := some ob }
    | .netError .ECONNABORTED _ =>
        { response := { status := 504, error := some "Gateway Timeout",
                        message := some "Analysis took too long to complete. Try a simpler query or try again later." },
          outbound := some ob }
    | .netError .ECONNRESET _ =>
        { response := { status := 502, error := some "Bad Gateway",
                        message := some "Connection to backend was reset. The analysis might be too complex or the server is overloaded." },
          outbound := some ob }
    | .netError _ msg =>
        { response := { status := 500, error := some "Analysis Error", message := some msg },
          outbound := some ob }

/-! ### Upload handler (`POST /api/upload-documents`, src/proxy/index.js:363-510) -/

/-- One file staged by the multipart parser: formidable's metadata
(src/proxy/index.js:424) plus the environment fact whether
`fs.readFileSync(file.filepath)` (line 428) succeeds for it. -/
structure StagedFile where
  originalFilename : String
  filepath : String
  size : Nat
  mimetype : String
  readOk : Bool
deriving DecidableEq, Repr

/-- Outcome of `await form.parse(req)` (src/proxy/index.js:405).  On a
rejection, `opened` are the files formidable had already written to the temp
directory; formidable v3 destroys (unlinks) each of them itself when it
errors, before the rejection reaches the handler.  On success, `filesField`
is the `files.files` array (`none` when no file arrived under the `files`
field) and `otherFields` are files staged under any other field name, which
the handler never touches. -/
inductive ParseOutcome where
  | failed (msg : String) (opened : List StagedFile)
  | parsed (fileTypeField : Option String) (filesField : Option (List StagedFile))
      (otherFields : List StagedFile)
deriving DecidableEq, Repr

/-- All files the parser materialised in temp storage. -/
def ParseOutcome.stagedFiles : ParseOutcome → List StagedFile
  | .failed _ opened => opened
  | .parsed _ filesField others => filesField.getD [] ++ others

/-- One file of the rebuilt outbound multipart body
(`formData.append('files', ...)`, src/proxy/index.js:431-434). -/
structure OutFile where
  filename : String
  mimetype : String
deriving DecidableEq, Repr

/-- How a staged file appears in the outbound multipart body. -/
def StagedFile.toOutFile (f : StagedFile) : OutFile :=
  { filename := f.originalFilename, mimetype := f.mimetype }

/-- Result of the upload handler: the response, the temp-file paths deleted by
the parser itself (on a parse error), the paths the handler's cleanup loops
unlink (src/proxy/index.js:454-463 and 472-480), and the outbound multipart
file list (`none` when the backend was never called). -/
structure UploadResult where
  response : Response
  parserDeleted : List String
  handlerDeleted : List String
  outboundFiles : Option (List OutFile)
deriving DecidableEq, Repr

/-- How many times a given temp-file path is deleted over the whole request. -/
def UploadResult.deletedCount (r : UploadResult) (fp : String) : Nat :=
  (r.parserDeleted ++ r.handlerDeleted).count fp

/-- The hard 200MB per-file ceiling configured for formidable
(`maxFileSize: 200 * 1024 * 1024`, src/proxy/index.js:388). -/
def maxFileSize : Nat := 200 * 1024 * 1024

/-- Modelled from documented formidable behaviour (the library itself is not
part of the repository): with `maxFileSize` configured
(src/proxy/index.js:387-393), a parse of a body containing a part larger than
the ceiling rejects. -/
def sizeLimited (parts : List StagedFile) (p : ParseOutcome) : Prop :=
  (∃ f ∈ parts, maxFileSize < f.size) → ∃ m o, p = ParseOutcome.failed m o

/-- `app.post('/api/upload-documents')` at src/proxy/index.js:363-510:
401 when the Authorization header is JS-falsy (line 381); on a parse
rejection respond 500 `Failed to parse form data` (lines 496-502, the handler
deletes nothing there); 400 `No files provided` when `files.files` is absent
(line 494); otherwise read each file of `files.files` back from temp storage
(read failures are logged and the file skipped, lines 426-437), post the
rebuilt multipart body to the backend, unlink every `files.files` temp path in
the cleanup loop of whichever branch is taken, and relay the backend response
(success: lines 453-467; error: lines 468-491). -/
def uploadHandler (auth : Option String) (parse : ParseOutcome)
    (backend : AxiosOutcome) : UploadResult :=
  if jsTruthy auth = false then
    { response := { status := 401, error := some "Missing authorization header" },
      parserDeleted := [], handlerDeleted := [], outboundFiles := none }
  else
    match parse with
    | .failed msg opened =>
        { response := { status := 500, error := some "Failed to parse form data",
                        message := some msg },
          parserDeleted := opened.map (·.filepath), handlerDeleted := [],
          outboundFiles := none }
    | .parsed _ filesField _ =>
        match filesField with
        | none =>
            { response := { status := 400, error := some "No files provided" },
              parserDeleted := [], handlerDeleted := [], outboundFiles := none }
        | some fileArray =>
            let outbound := (fileArray.filter (·.readOk)).map StagedFile.toOutFile
            let cleanup := fileArray.map (·.filepath)
            match backend with
            | .success s b =>
                { response := { status := s, body := some b },
                  parserDeleted := [], handlerDeleted := cleanup,
                  outboundFiles := some outbound }
            | .httpError s b _ _ =>
                { response := { status := s, body := some b },
                  parserDeleted := [], handlerDeleted := cleanup,
                  outboundFiles := some outbound }
            | .netError _ msg =>
                { response := { status := 500, error := some "Upload failed",
                                message := some msg },
                  parserDeleted := [], handlerDeleted := cleanup,
                  outboundFiles := some outbound }

/-! ### Generic proxy and app-level dispatch (src/proxy/index.js:178-235, 342, 15-36, 345-360) -/

/-- The request the generic `apiProxy` sends to the backend: one leading
`/api` stripped (`pathRewrite` at src/proxy/index.js:181-183, applied to the
original url which http-proxy-middleware restores when mounted), everything
else unchanged, Authorization copied when present (line 191-192). -/
structure ForwardedReq where
  method : Method
  path : String
  queryString : String
  body : Option String
  authorization : Option String
deriving DecidableEq, Repr

/-- The `pathRewrite: {'^/api': ''}` rule. -/
def stripApi (p : String) : String :=
  if strStarts p "/api" then strDrop p 4 else p

/-- Express mount matching for `app.use('/api', ...)`: the path is `/api`
itself or continues with a slash. -/
def mountsApi (p : String) : Bool :=
  p == "/api" || strStarts p "/api/"

/-- An inbound HTTP request as the app sees it.  `queryQuery` is the `query`
query parameter, `username`/`password` the parsed body fields of a token
request, `body` the raw body, `bodyMalformed` records that the global
`express.json`/`express.urlencoded` parsers (src/proxy/index.js:15-16) reject
the body, and `parserConsumed` records that those parsers matched the
request's Content-Type (JSON or urlencoded, with a body) and drained the
request stream — after which no middleware can re-stream the body. -/
structure InboundReq where
  method : Method
  path : String
  queryString : String
  queryQuery : Option String
  authorization : Option String
  username : Option String
  password : Option String
  body : Option String
  bodyMalformed : Bool
  parserConsumed : Bool
deriving DecidableEq, Repr

/-- Environment oracle for one request: the outcome of the single outbound
backend call (if one is made) and the multipart parser's outcome (only
consulted by the upload handler). -/
structure Env where
  backend : AxiosOutcome
  parse : ParseOutcome
deriving DecidableEq, Repr

/-- Which registered middleware/route produced the response. -/
inductive Route where
  | bodyParserError
  | corsPreflight
  | token
  | analyze
  | genericProxy
  | health
  | customUpload
  | notFound
deriving DecidableEq, Repr

/-- App-level result: the response, the component that produced it, the
generic proxy's forwarded request (if any), whether any outbound contact with
the backend was attempted, and whether any multipart temp file was created. -/
structure AppResult where
  response : Response
  route : Route
  forwarded : Option ForwardedReq
  backendContacted : Bool
  tempFilesCreated : Bool
deriving DecidableEq, Repr

/-- The Express app of src/proxy/index.js in registration order.
A body the parsers reject (lines 15-16) goes down the error chain, skipping
the cors middleware and every route; the only error middleware (line 354)
passes non-timeout errors on to Express's default handler, which answers
without CORS headers (status 400 for malformed bodies, 413 for over-limit
ones — the model fixes 400, the claims only concern the missing header).
Otherwise: cors (line 19) sets the CORS headers and short-circuits OPTIONS
with 204; then `POST /api/token` (line 39), `POST /api/analyze-competitors`
(line 238), `app.use('/api', apiProxy)` (line 342) which captures every
remaining `/api` request — including `POST /api/upload-documents` — and
forwards it, `GET /health` (line 345), and the custom upload handler
(line 363), which is therefore unreachable; anything else falls through to
Express's default 404 (with the CORS headers already set).
The generic proxy pipes the request stream to the backend; when the global
parsers already consumed a JSON/urlencoded body (and the configuration uses
no `fixRequestBody` — the `onProxyReq` at line 187 only sets Authorization),
the proxied request carries no body, so the forwarded body is `none` for a
consumed body and the raw body otherwise. -/
def dispatch (req : InboundReq) (env : Env) : AppResult :=
  if req.bodyMalformed = true then
    { response := { status := 400, acao := false }, route := .bodyParserError,
      forwarded := none, backendContacted := false, tempFilesCreated := false }
  else if req.method = .OPTIONS then
    { response := { status := 204 }, route := .corsPreflight,
      forwarded := none, backendContacted := false, tempFilesCreated := false }
  else if req.method = .POST ∧ req.path = "/api/token" then
    let r := tokenHandler req.username req.password env.backend
    { response := r.response, route := .token, forwarded := none,
      backendContacted := r.backendCalled, tempFilesCreated := false }
  else if req.method = .POST ∧ req.path = "/api/analyze-competitors" then
    let r := analyzeHandler req.authorization req.queryQuery req.body env.backend
    { response := r.response, route := .analyze, forwarded := none,
      backendContacted := r.outbound.isSome, tempFilesCreated := false }
  else if mountsApi req.path = true then
    let resp : Response :=
      match env.backend with
      | .success s b => { status := s, body := some b }
      | .httpError s b _ _ => { status := s, body := some b }
      | .netError _ msg => { status := 500, error := some "Proxy Error", message := some msg }
    { response := resp, route := .genericProxy,
      forwarded := some { method := req.method, path := stripApi req.path,
                          queryString := req.queryString,
                          body := if req.parserConsumed = true then none else req.body,
                          authorization := req.authorization },
      backendContacted := true, tempFilesCreated := false }
  else if req.method = .GET ∧ req.path = "/health" then
    { response := { status := 200, body := some "ok" }, route := .health,
      forwarded := none, backendContacted := false, tempFilesCreated := false }
  else if req.method = .POST ∧ req.path = "/api/upload-documents" then
    let r := uploadHandler req.authorization env.parse env.backend
    { response := r.response, route := .customUpload, forwarded := none,
      backendContacted := r.outboundFiles.isSome,
      tempFilesCreated := !env.parse.stagedFiles.isEmpty }
  else
    { response := { status := 404 }, route := .notFound,
      forwarded := none, backendContacted := false, tempFilesCreated := false }

/-! ### Concrete inputs used by counterexamples and witnesses -/

/-- A small readable staged file. -/
def fileA : StagedFile :=
  { originalFilename := "a.pdf", filepath := "/tmp/upload-a", size := 10,
    mimetype := "application/pdf", readOk := true }

/-- A second small readable staged file with a distinct temp path. -/
def fileB : StagedFile :=
  { originalFilename := "b.pdf", filepath := "/tmp/upload-b", size := 20,
    mimetype := "application/pdf", readOk := true }

/-- A staged file whose read back from temp storage fails. -/
def fileBad : StagedFile :=
  { originalFilename := "bad.pdf", filepath := "/tmp/upload-bad", size := 30,
    mimetype := "application/pdf", readOk := false }

/-- A staged file over the 200MB ceiling (300MB). -/
def bigFile : StagedFile :=
  { originalFilename := "big.bin", filepath := "/tmp/upload-big", size := 300 * 1024 * 1024,
    mimetype := "application/octet-stream", readOk := true }

/-- A `POST /api/upload-documents` request with no Authorization header and a
well-formed (multipart) body. -/
def uploadNoAuthReq : InboundReq :=
  { method := .POST, path := "/api/upload-documents", queryString := "",
    queryQuery := none, authorization := none, username := none, password := none,
    body := some "", bodyMalformed := false, parserConsumed := false }

/-- An environment in which the backend answers 404. -/
def notFoundEnv : Env :=
  { backend := .success 404 "Not Found", parse := .parsed none none [] }

/-- An environment in which the backend answers 200 "ok". -/
def okEnv : Env :=
  { backend := .success 200 "ok", parse := .parsed none none [] }

/-- An environment in which the outbound connection is refused. -/
def refusedEnv : Env :=
  { backend := .netError .ECONNREFUSED "connect ECONNREFUSED", parse := .parsed none none [] }

/-- A request whose JSON body the body parser rejects. -/
def malformedBodyReq : InboundReq :=
  { method := .POST, path := "/api/analyze-competitors", queryString := "query=acme",
    queryQuery := some "acme", authorization := some "Bearer t", username := none,
    password := none, body := some "not-json", bodyMalformed := true,
    parserConsumed := true }

/-- A plain GET under `/api` not matched by any dedicated route. -/
def forwardReqEx : InboundReq :=
  { method := .GET, path := "/api/documents", queryString := "x=1",
    queryQuery := none, authorization := some "Bearer z", username := none,
    password := none, body := none, bodyMalformed := false,
    parserConsumed := false }

/-- A POST under `/api` with a urlencoded body, which the global parsers
consume before the generic proxy can pipe it. -/
def jsonBodyReq : InboundReq :=
  { method := .POST, path := "/api/documents", queryString := "",
    queryQuery := none, authorization := some "Bearer z", username := none,
    password := none, body := some "username=u&password=p", bodyMalformed := false,
    parserConsumed := true }

/-! ### Claim C1 -/

/-- Claim C1 fails on the code: `app.use('/api', apiProxy)`
(src/proxy/index.js:342) is registered before the custom upload handler
(line 363), so a `POST /api/upload-documents` without an Authorization header
is captured by the generic proxy and forwarded to the backend; the proxy's
response is the backend's (here 404), not a locally generated 401.  The dead
custom handler (whose first action is exactly the claimed 401) shows the
registration order is a slip.  No temp file is created on this path. -/
theorem upload_route_captured_by_generic_proxy :
    (dispatch uploadNoAuthReq notFoundEnv).route = Route.genericProxy ∧
    (dispatch uploadNoAuthReq notFoundEnv).backendContacted = true ∧
    (dispatch uploadNoAuthReq notFoundEnv).response.status = 404 ∧
    (dispatch uploadNoAuthReq notFoundEnv).tempFilesCreated = false := by
  decide

/-! ### Claim C5 -/

/-- Claim C5 counterexample: with both credentials present and the backend's
token endpoint resolving with success status 201, the proxy responds 200
(`res.status(200)` is hardcoded at src/proxy/index.js:69), so the backend's
status code is not carried unchanged; the JSON body is. -/
theorem token_success_status_not_relayed :
    (tokenHandler (some "u") (some "p") (.success 201 "tok")).response.status = 200 ∧
    (tokenHandler (some "u") (some "p") (.success 201 "tok")).response.body = some "tok" ∧
    (tokenHandler (some "u") (some "p") (.success 201 "tok")).response.status ≠ 201 := by
  decide

/-- Claim C5 amended: for every `POST /api/token` request with both username
and password present, when the backend's token endpoint responds with a
success status the proxy's response carries the backend's JSON body unchanged
with status 200, whatever the backend's success status was. -/
theorem token_success_relays_body_with_200 (u p b : String) (s : Nat)
    (hu : u ≠ "") (hp : p ≠ "") (hs : 200 ≤ s ∧ s < 300) :
    (tokenHandler (some u) (some p) (.success s b)).response =
      { status := 200, body := some b } := by
  unfold tokenHandler
  rw [if_neg]
  · push_neg
    constructor <;> simp [jsTruthy, hu, hp]

/-- Witness for the amended claim C5 at concrete inputs. -/
theorem token_success_relays_body_with_200_witness :
    (tokenHandler (some "u") (some "p") (.success 204 "granted")).response =
      { status := 200, body := some "granted" } :=
  token_success_relays_body_with_200 "u" "p" "granted" 204 (by decide) (by decide)
    (by constructor <;> decide)

/-! ### Claim C3 -/

/-- Claim C3: on an authorized analysis request with a non-empty query, an
outbound timeout (axios code ECONNABORTED) yields 504 `Gateway Timeout`, a
connection reset yields 502 `Bad Gateway`, and every other network failure
yields 500 (src/proxy/index.js:311-329). -/
theorem analyze_network_failure_mapping (a q : String) (rb : Option String) (m : String)
    (hb : strStarts a "Bearer " = true) (hq : q ≠ "") :
    ((analyzeHandler (some a) (some q) rb (.netError .ECONNABORTED m)).response.status = 504 ∧
      (analyzeHandler (some a) (some q) rb (.netError .ECONNABORTED m)).response.error =
        some "Gateway Timeout") ∧
    ((analyzeHandler (some a) (some q) rb (.netError .ECONNRESET m)).response.status = 502 ∧
      (analyzeHandler (some a) (some q) rb (.netError .ECONNRESET m)).response.error =
        some "Bad Gateway") ∧
    (∀ c : ErrCode, c ≠ .ECONNABORTED → c ≠ .ECONNRESET →
      (analyzeHandler (some a) (some q) rb (.netError c m)).response.status = 500 ∧
      (analyzeHandler (some a) (some q) rb (.netError c m)).response.error =
        some "Analysis Error") := by
  have h1 : bearerOk (some a) = true := by simpa [bearerOk] using hb
  have h2 : jsTruthy (some q) = true := by simp [jsTruthy, hq]
  refine ⟨?_, ?_, ?_⟩
  · simp [analyzeHandler, h1, h2]
  · simp [analyzeHandler, h1, h2]
  · intro c hc1 hc2
    cases c
    case ECONNABORTED => exact absurd rfl hc1
    case ECONNRESET => exact absurd rfl hc2
    all_goals simp [analyzeHandler, h1, h2]

/-- Witness for claim C3 at concrete inputs, covering all three legs. -/
theorem analyze_network_failure_mapping_witness :
    (analyzeHandler (some "Bearer t") (some "acme") none
        (.netError .ECONNABORTED "boom")).response.status = 504 ∧
    (analyzeHandler (some "Bearer t") (some "acme") none
        (.netError .ECONNRESET "boom")).response.status = 502 ∧
    (analyzeHandler (some "Bearer t") (some "acme") none
        (.netError .ECONNREFUSED "boom")).response.status = 500 :=
  ⟨(analyze_network_failure_mapping "Bearer t" "acme" none "boom" (by decide) (by decide)).1.1,
   (analyze_network_failure_mapping "Bearer t" "acme" none "boom" (by decide) (by decide)).2.1.1,
   ((analyze_network_failure_mapping "Bearer t" "acme" none "boom" (by decide) (by decide)).2.2
      .ECONNREFUSED (by decide) (by decide)).1⟩

/-! ### Claim C7 -/

/-- Claim C7: the analysis handler responds 401 when the Authorization header
is missing or does not start with `Bearer `, and 400 when the `query`
parameter is missing or empty; in both cases no outbound call is made
(src/proxy/index.js:242-258). -/
theorem analyze_auth_and_query_rejections (auth q rb : Option String) (backend : AxiosOutcome) :
    (bearerOk auth = false →
      (analyzeHandler auth q rb backend).response.status = 401 ∧
      (analyzeHandler auth q rb backend).outbound = none) ∧
    (bearerOk auth = true → jsTruthy q = false →
      (analyzeHandler auth q rb backend).response.status = 400 ∧
      (analyzeHandler auth q rb backend).outbound = none) := by
  constructor
  · intro h
    simp [analyzeHandler, h]
  · intro h1 h2
    simp [analyzeHandler, h1, h2]

/-- Witness for claim C7: a missing header gives 401, a present bearer header
with a missing query gives 400. -/
theorem analyze_auth_and_query_rejections_witness :
    ((analyzeHandler none (some "acme") none (.success 200 "b")).response.status = 401 ∧
      (analyzeHandler none (some "acme") none (.success 200 "b")).outbound = none) ∧
    ((analyzeHandler (some "Bearer t") none none (.success 200 "b")).response.status = 400 ∧
      (analyzeHandler (some "Bearer t") none none (.success 200 "b")).outbound = none) :=
  ⟨(analyze_auth_and_query_rejections none (some "acme") none (.success 200 "b")).1 (by decide),
   (analyze_auth_and_query_rejections (some "Bearer t") none none (.success 200 "b")).2
      (by decide) (by decide)⟩

/-! ### Claim C10 -/

/-- Claim C10: once the checks pass, the outbound backend request built by the
analysis handler consists only of the `query` parameter, the Authorization
header, and Accept/Content-Type headers, with no body — the right-hand side
does not mention the inbound request body `rb` (src/proxy/index.js:262-275). -/
theorem analyze_outbound_independent_of_body (a q : String) (rb : Option String)
    (backend : AxiosOutcome) (hb : strStarts a "Bearer " = true) (hq : q ≠ "") :
    (analyzeHandler (some a) (some q) rb backend).outbound =
      some { queryParam := q, authorization := a, accept := "application/json",
             contentType := "application/json", body := none } := by
  have h1 : bearerOk (some a) = true := by simpa [bearerOk] using hb
  have h2 : jsTruthy (some q) = true := by simp [jsTruthy, hq]
  cases backend with
  | success s b => simp [analyzeHandler, h1, h2]
  | httpError s b d m => simp [analyzeHandler, h1, h2]
  | netError c m => cases c <;> simp [analyzeHandler, h1, h2]

/-- Witness for claim C10 at a concrete request carrying a body. -/
theorem analyze_outbound_independent_of_body_witness :
    (analyzeHandler (some "Bearer t") (some "acme") (some "ignored body")
        (.success 200 "b")).outbound =
      some { queryParam := "acme", authorization := "Bearer t",
             accept := "application/json", contentType := "application/json",
             body := none } :=
  analyze_outbound_independent_of_body "Bearer t" "acme" (some "ignored body")
    (.success 200 "b") (by decide) (by decide)

/-! ### Claim C2 -/

/-- Claim C2 counterexample: a file staged by the multipart parser under a
field other than `files` (here `fileB`) is staged but deleted zero times on
the backend-success exit path — the cleanup loops at src/proxy/index.js:454
and :472 iterate only over `files.files`. -/
theorem upload_cleanup_misses_other_fields :
    fileB ∈ (ParseOutcome.parsed none (some [fileA]) [fileB]).stagedFiles ∧
    (uploadHandler (some "Bearer t") (.parsed none (some [fileA]) [fileB])
        (.success 200 "ok")).deletedCount fileB.filepath = 0 := by
  decide

/-- Claim C2 amended: each file staged under the `files` field is deleted
exactly once before the response is finalized, on the backend-success and
backend-error exit paths alike (and on a parse error the parser itself
destroys each file it had opened, once); files staged under other field names
are never deleted. -/
theorem upload_cleanup_files_field_exactly_once (a : String) (ha : a ≠ "")
    (ft : Option String) (arr others opened : List StagedFile)
    (backend : AxiosOutcome) (msg : String)
    (hnd : ((arr ++ others).map (·.filepath)).Nodup)
    (hno : (opened.map (·.filepath)).Nodup) :
    (∀ f ∈ arr,
      (uploadHandler (some a) (.parsed ft (some arr) others) backend).deletedCount
        f.filepath = 1) ∧
    (∀ g ∈ others,
      (uploadHandler (some a) (.parsed ft (some arr) others) backend).deletedCount
        g.filepath = 0) ∧
    (∀ f ∈ opened,
      (uploadHandler (some a) (.failed msg opened) backend).deletedCount
        f.filepath = 1) := by
  have hj : jsTruthy (some a) = true := by simp [jsTruthy, ha]
  rw [List.map_append] at hnd
  have h1 : ((arr.map (·.filepath) : List String)).Nodup := hnd.of_append_left
  have hdisj := List.disjoint_of_nodup_append hnd
  refine ⟨?_, ?_, ?_⟩
  · intro f hf
    have hmem : f.filepath ∈ arr.map (·.filepath) := List.mem_map_of_mem _ hf
    cases backend <;>
      simp [uploadHandler, hj, UploadResult.deletedCount,
            List.count_eq_one_of_mem h1 hmem]
  · intro g hg
    have hmem : g.filepath ∈ others.map (·.filepath) := List.mem_map_of_mem _ hg
    have hnotmem : g.filepath ∉ arr.map (·.filepath) := fun hc => hdisj hc hmem
    cases backend <;>
      simp [uploadHandler, hj, UploadResult.deletedCount,
            List.count_eq_zero_of_not_mem hnotmem]
  · intro f hf
    have hmem : f.filepath ∈ opened.map (·.filepath) := List.mem_map_of_mem _ hf
    cases backend <;>
      simp [uploadHandler, hj, UploadResult.deletedCount,
            List.count_eq_one_of_mem hno hmem]

/-- Witness for the amended claim C2 at concrete inputs. -/
theorem upload_cleanup_files_field_exactly_once_witness :
    (∀ f ∈ [fileA],
      (uploadHandler (some "Bearer t") (.parsed none (some [fileA]) [fileB])
          (.success 200 "ok")).deletedCount f.filepath = 1) ∧
    (∀ g ∈ [fileB],
      (uploadHandler (some "Bearer t") (.parsed none (some [fileA]) [fileB])
          (.success 200 "ok")).deletedCount g.filepath = 0) ∧
    (∀ f ∈ [fileA],
      (uploadHandler (some "Bearer t") (.failed "boom" [fileA])
          (.success 200 "ok")).deletedCount f.filepath = 1) :=
  upload_cleanup_files_field_exactly_once "Bearer t" (by decide) none [fileA] [fileB]
    [fileA] (.success 200 "ok") "boom" (by decide) (by decide)

/-! ### Claim C4 -/

/-- Claim C4 counterexample: a part over the 200MB ceiling makes formidable
reject the parse, and the handler's parse-error branch
(src/proxy/index.js:496-502) answers 500 — not a 4xx status — though indeed
without forwarding anything to the backend. -/
theorem upload_oversize_gives_500_not_4xx :
    maxFileSize < bigFile.size ∧
    (uploadHandler (some "Bearer t") (.failed "maxFileSize exceeded" [bigFile])
        (.success 200 "ok")).response.status = 500 ∧
    ¬(400 ≤ (uploadHandler (some "Bearer t") (.failed "maxFileSize exceeded" [bigFile])
          (.success 200 "ok")).response.status ∧
      (uploadHandler (some "Bearer t") (.failed "maxFileSize exceeded" [bigFile])
          (.success 200 "ok")).response.status < 500) ∧
    (uploadHandler (some "Bearer t") (.failed "maxFileSize exceeded" [bigFile])
        (.success 200 "ok")).outboundFiles = none := by
  decide

/-- Claim C4 amended: a request containing a file part over the 200MB ceiling
is rejected with status 500 and error `Failed to parse form data`, without
forwarding anything to the backend. -/
theorem upload_oversize_rejected_500 (a : String) (ha : a ≠ "")
    (parts : List StagedFile) (p : ParseOutcome) (backend : AxiosOutcome)
    (hlim : sizeLimited parts p) (hbig : ∃ f ∈ parts, maxFileSize < f.size) :
    (uploadHandler (some a) p backend).response.status = 500 ∧
    (uploadHandler (some a) p backend).response.error = some "Failed to parse form data" ∧
    (uploadHandler (some a) p backend).outboundFiles = none := by
  obtain ⟨m, o, rfl⟩ := hlim hbig
  have hj : jsTruthy (some a) = true := by simp [jsTruthy, ha]
  simp [uploadHandler, hj]

/-- Witness for the amended claim C4 at concrete inputs. -/
theorem upload_oversize_rejected_500_witness :
    (uploadHandler (some "Bearer t") (.failed "maxFileSize exceeded" [bigFile])
        (.success 200 "ok")).response.status = 500 ∧
    (uploadHandler (some "Bearer t") (.failed "maxFileSize exceeded" [bigFile])
        (.success 200 "ok")).response.error = some "Failed to parse form data" ∧
    (uploadHandler (some "Bearer t") (.failed "maxFileSize exceeded" [bigFile])
        (.success 200 "ok")).outboundFiles = none :=
  upload_oversize_rejected_500 "Bearer t" (by decide) [bigFile]
    (.failed "maxFileSize exceeded" [bigFile]) (.success 200 "ok")
    (fun _ => ⟨"maxFileSize exceeded", [bigFile], rfl⟩)
    ⟨bigFile, by decide, by decide⟩

/-! ### Claim C9 -/

/-- Claim C9: files whose read back from temp storage fails are silently
omitted from the outbound multipart body (the loop at
src/proxy/index.js:423-438 catches and only logs the read error) and the
request proceeds: the backend is called with exactly the readable files and
its success response is relayed. -/
theorem upload_omits_unreadable_files (a : String) (ha : a ≠ "") (ft : Option String)
    (arr others : List StagedFile) (s : Nat) (b : String) :
    (uploadHandler (some a) (.parsed ft (some arr) others) (.success s b)).outboundFiles =
      some ((arr.filter (·.readOk)).map StagedFile.toOutFile) ∧
    (uploadHandler (some a) (.parsed ft (some arr) others) (.success s b)).response.status = s ∧
    (uploadHandler (some a) (.parsed ft (some arr) others) (.success s b)).response.body =
      some b := by
  have hj : jsTruthy (some a) = true := by simp [jsTruthy, ha]
  simp [uploadHandler, hj]

/-- Witness for claim C9: of two submitted files, the unreadable one is
dropped and the caller is still told the upload succeeded. -/
theorem upload_omits_unreadable_files_witness :
    (uploadHandler (some "Bearer t") (.parsed none (some [fileBad, fileA]) [])
        (.success 200 "uploaded")).outboundFiles =
      some (([fileBad, fileA].filter (·.readOk)).map StagedFile.toOutFile) ∧
    (uploadHandler (some "Bearer t") (.parsed none (some [fileBad, fileA]) [])
        (.success 200 "uploaded")).response.status = 200 ∧
    (uploadHandler (some "Bearer t") (.parsed none (some [fileBad, fileA]) [])
        (.success 200 "uploaded")).response.body = some "uploaded" :=
  upload_omits_unreadable_files "Bearer t" (by decide) none [fileBad, fileA] [] 200 "uploaded"

/-! ### Claim C6 -/

/-- Every token-handler response keeps the CORS header set by the cors
middleware. -/
lemma tokenHandler_acao (u p : Option String) (b : AxiosOutcome) :
    (tokenHandler u p b).response.acao = true := by
  unfold tokenHandler
  split
  · rfl
  · cases b with
    | success s bo => rfl
    | httpError s bo d m => rfl
    | netError c m => rfl

/-- Every analysis-handler response keeps the CORS header. -/
lemma analyzeHandler_acao (auth q rb : Option String) (b : AxiosOutcome) :
    (analyzeHandler auth q rb b).response.acao = true := by
  unfold analyzeHandler
  split
  · rfl
  · split
    · rfl
    · cases b with
      | success s bo => rfl
      | httpError s bo d m => rfl
      | netError c m => cases c <;> rfl

/-- Every upload-handler response keeps the CORS header. -/
lemma uploadHandler_acao (auth : Option String) (p : ParseOutcome) (b : AxiosOutcome) :
    (uploadHandler auth p b).response.acao = true := by
  unfold uploadHandler
  split
  · rfl
  · cases p with
    | failed m o => rfl
    | parsed ft ff others =>
      cases ff with
      | none => rfl
      | some arr => cases b <;> rfl

/-- Claim C6 counterexample: a request whose JSON body the body parsers
reject never reaches the cors middleware — `express.json`/`express.urlencoded`
(src/proxy/index.js:15-16) are registered before `cors` (line 19) and their
parse error goes down the error chain to Express's default handler, which
answers without `Access-Control-Allow-Origin`. -/
theorem cors_header_missing_on_body_parse_error :
    (dispatch malformedBodyReq okEnv).response.acao = false := by
  decide

/-- Claim C6 amended: every inbound request whose body the body parsers
accept receives a response carrying `Access-Control-Allow-Origin` — including
OPTIONS preflights, 4xx/5xx responses, and locally generated errors on every
handler's error branch; only a request whose JSON/urlencoded body fails to
parse is answered without it. -/
theorem cors_header_on_parsed_requests (req : InboundReq) (env : Env)
    (h : req.bodyMalformed = false) :
    (dispatch req env).response.acao = true := by
  unfold dispatch
  split_ifs with h0 h1 h2 h3 h4 h5 h6 h7
  · rw [h] at h0
    cases h0
  · rfl
  · exact tokenHandler_acao req.username req.password env.backend
  · exact analyzeHandler_acao req.authorization req.queryQuery req.body env.backend
  · cases env.backend <;> rfl
  · cases env.backend <;> rfl
  · rfl
  · exact uploadHandler_acao req.authorization env.parse env.backend
  · rfl

/-- Witness for the amended claim C6: a concrete well-formed request (here one
that ends in the generic proxy's error branch) carries the CORS header. -/
theorem cors_header_on_parsed_requests_witness :
    (dispatch forwardReqEx refusedEnv).response.acao = true :=
  cors_header_on_parsed_requests forwardReqEx refusedEnv (by decide)

/-! ### Claim C8 -/

/-- Claim C8 counterexample: a `POST /api/documents` with a urlencoded body
is handled by the generic proxy, but the global
`express.json`/`express.urlencoded` parsers (src/proxy/index.js:15-16,
registered before `app.use('/api', apiProxy)` at line 342) have already
drained the request stream, and the proxy configuration uses no
`fixRequestBody` (its `onProxyReq` at line 187 only sets Authorization) —
so the forwarded request carries no body: the claim's "body unchanged" leg
fails. -/
theorem generic_proxy_drops_parsed_body :
    (dispatch jsonBodyReq okEnv).route = Route.genericProxy ∧
    jsonBodyReq.body = some "username=u&password=p" ∧
    (dispatch jsonBodyReq okEnv).forwarded =
      some { method := Method.POST, path := "/documents", queryString := "",
             body := none, authorization := some "Bearer z" } := by
  decide

/-- Claim C8 amended: every `/api` request not matched by the token or
analysis route (and not short-circuited as OPTIONS preflight) is handled by
the generic proxy, which forwards it with one leading `/api` stripped from
the path and the method, query string and Authorization header unchanged;
the body is forwarded unchanged only when the global JSON/urlencoded body
parsers did not consume it — a body those parsers consumed is not forwarded
at all; and on any transport-level failure the proxy still answers 500
`{error: "Proxy Error", message}` with the CORS header
(src/proxy/index.js:15-16, 178-235, 342). -/
theorem generic_proxy_forward_contract (req : InboundReq) (env : Env)
    (hw : req.bodyMalformed = false)
    (hm : ¬req.method = Method.OPTIONS)
    (ht : ¬(req.method = Method.POST ∧ req.path = "/api/token"))
    (ha : ¬(req.method = Method.POST ∧ req.path = "/api/analyze-competitors"))
    (hp : mountsApi req.path = true) :
    (dispatch req env).route = Route.genericProxy ∧
    (dispatch req env).forwarded =
      some { method := req.method, path := stripApi req.path,
             queryString := req.queryString,
             body := if req.parserConsumed = true then none else req.body,
             authorization := req.authorization } ∧
    (req.parserConsumed = false →
      (dispatch req env).forwarded =
        some { method := req.method, path := stripApi req.path,
               queryString := req.queryString, body := req.body,
               authorization := req.authorization }) ∧
    (∀ c m, env.backend = AxiosOutcome.netError c m →
      (dispatch req env).response =
        { status := 500, error := some "Proxy Error", message := some m }) := by
  have h0 : ¬(req.bodyMalformed = true) := by simp [hw]
  unfold dispatch
  rw [if_neg h0, if_neg hm, if_neg ht, if_neg ha, if_pos hp]
  refine ⟨rfl, rfl, ?_, ?_⟩
  · intro hpc
    rw [hpc]
    simp
  · intro c m hcm
    rw [hcm]

/-- Witness for the amended claim C8: `GET /api/documents?x=1` (body not
consumed by the parsers) is forwarded as `GET /documents?x=1` with the
Authorization header copied, and a refused connection yields the normalized
500 with the CORS header. -/
theorem generic_proxy_forward_contract_witness :
    (dispatch forwardReqEx refusedEnv).forwarded =
      some { method := Method.GET, path := "/documents", queryString := "x=1",
             body := none, authorization := some "Bearer z" } ∧
    (dispatch forwardReqEx refusedEnv).response =
      { status := 500, error := some "Proxy Error",
        message := some "connect ECONNREFUSED" } :=
  ⟨(generic_proxy_forward_contract forwardReqEx refusedEnv (by decide) (by decide)
      (by decide) (by decide) (by decide)).2.2.1 (by decide),
   (generic_proxy_forward_contract forwardReqEx refusedEnv (by decide) (by decide)
      (by decide) (by decide) (by decide)).2.2.2 .ECONNREFUSED "connect ECONNREFUSED" rfl⟩

end MbaProxy
